import Mathlib

/-!
Verification development for the Solana roast-bot wallet analysis system.

The frontend hooks and components under src/frontend are embedded directly
from the JavaScript source (useRoast.js, useBattle.js, BattleResult,
Achievements.jsx).  The backend scoring engine (Python, not part of the
source tree) is modelled from the specification where a claim depends on it;
such definitions carry a doc comment starting with Modelled from the spec.
-/

namespace RoastBot

/-- One character of the base58 alphabet used by the wallet-address pattern
in useRoast.js and useBattle.js: the regex character class
[1-9A-HJ-NP-Za-km-z], encoded here by code-point ranges
(49..57 = 1..9, 65..72 = A..H, 74..78 = J..N, 80..90 = P..Z,
97..107 = a..k, 109..122 = m..z). -/
def isBase58Char (c : Char) : Bool :=
  let n := c.toNat
  (49 ≤ n && n ≤ 57) || (65 ≤ n && n ≤ 72) || (74 ≤ n && n ≤ 78) ||
  (80 ≤ n && n ≤ 90) || (97 ≤ n && n ≤ 107) || (109 ≤ n && n ≤ 122)

/-- WALLET_RE from useRoast.js / useBattle.js:
a full match of [1-9A-HJ-NP-Za-km-z] repeated 32 to 44 times. -/
def walletRe (s : String) : Bool :=
  32 ≤ s.length && s.length ≤ 44 && s.toList.all isBase58Char

/-- The JS input.trim() of the hooks, modelled structurally over the
character list: leading and trailing whitespace removed. -/
def jsTrim (s : String) : String :=
  ⟨((s.data.dropWhile Char.isWhitespace).reverse.dropWhile
      Char.isWhitespace).reverse⟩

/-- A roast payload as consumed by the frontend: the fields the embedded
components read.  degen_score may be absent in a response, hence Option. -/
structure Roast where
  degen_score : Option Nat
  title : String
  deriving DecidableEq, Repr

/-- Error conditions surfaced through the error state of the hooks, one
constructor per distinct message the source can set (plus upstream errors
re-thrown from fetchRoast / fetchBattle). -/
inductive ErrMsg where
  | invalidAddress
  | enterBothWallets
  | invalidFirstWallet
  | invalidSecondWallet
  | sameWallet
  | upstream (code : Nat)
  deriving DecidableEq, Repr

/-- Analytics event names passed to mp(...) in the hooks. -/
inductive MpTag where
  | roastStarted
  | roastCompleted
  | roastFailed
  | battleStarted
  | battleCompleted
  | battleFailed
  deriving DecidableEq, Repr

/-- An observable side effect of one hook invocation: an analytics track
call, or a network request to the backend pipeline (fetchRoast /
fetchBattle in utils/api.js). -/
inductive Effect where
  | track (t : MpTag)
  | fetchRoast (addr : String)
  | fetchBattle (a b : String)
  deriving DecidableEq, Repr

/-- True exactly for the effects that invoke the backend pipeline
(a fetch of /api/roast or /api/battle); analytics tracking is not an
upstream pipeline fetch. -/
def isPipelineFetch : Effect → Bool
  | Effect.track _ => false
  | Effect.fetchRoast _ => true
  | Effect.fetchBattle _ _ => true

/-- The React state managed by useRoast: roast, loading, error, wallet and
the useRef cache mapping addresses to previously fetched roasts. -/
structure RoastState where
  roast : Option Roast
  loading : Bool
  error : Option ErrMsg
  wallet : String
  cache : List (String × Roast)
  deriving DecidableEq, Repr

/-- Initial useRoast state: roast null, not loading, no error, empty wallet,
empty cache. -/
def initRoastState : RoastState :=
  { roast := none, loading := false, error := none, wallet := "", cache := [] }

/-- Association-list lookup standing in for the JS object access
cache.current[addr]. -/
def lookup (l : List (String × Roast)) (k : String) : Option Roast :=
  match l.find? (fun p => p.1 = k) with
  | some p => some p.2
  | none => none

/-- doRoast from useRoast.js as a state transition.  net is the outcome of
fetchRoast for each address (the backend as an oracle).  Returns the new
state and the ordered list of effects the call issues.  Mirrors the source:
trim; silently return on empty; mp roast_started; reject on WALLET_RE
failure setting the invalid-address error; on a cache hit serve the cached
roast with no fetch; otherwise fetch, cache and set the result, or set the
error message on failure; loading is true during the await and reset to
false in the finally block, so it is false in the returned state. -/
def doRoast (net : String → Except ErrMsg Roast) (input : String)
    (st : RoastState) : RoastState × List Effect :=
  let addr := jsTrim input
  if addr = "" then (st, [])
  else if walletRe addr = false then
    ({ st with error := some ErrMsg.invalidAddress },
     [Effect.track MpTag.roastStarted])
  else
    match lookup st.cache addr with
    | some r =>
        ({ st with wallet := addr, loading := false, error := none,
                   roast := some r },
         [Effect.track MpTag.roastStarted, Effect.track MpTag.roastCompleted])
    | none =>
        match net addr with
        | Except.ok data =>
            ({ st with wallet := addr, loading := false, error := none,
                       roast := some data, cache := (addr, data) :: st.cache },
             [Effect.track MpTag.roastStarted, Effect.fetchRoast addr,
              Effect.track MpTag.roastCompleted])
        | Except.error e =>
            ({ st with wallet := addr, loading := false, error := some e,
                       roast := none },
             [Effect.track MpTag.roastStarted, Effect.fetchRoast addr,
              Effect.track MpTag.roastFailed])

/-- A battle payload: the two roasts plus the wallet strings, as read by the
BattleResult component. -/
structure Battle where
  roast1 : Roast
  roast2 : Roast
  wallet1 : String
  wallet2 : String
  deriving DecidableEq, Repr

/-- The React state managed by useBattle: battle result, loading, error. -/
structure BattleState where
  battle : Option Battle
  loading : Bool
  error : Option ErrMsg
  deriving DecidableEq, Repr

/-- Initial useBattle state. -/
def initBattleState : BattleState :=
  { battle := none, loading := false, error := none }

/-- doBattle from useBattle.js as a state transition.  Mirrors the source:
trim both inputs; reject when either is empty, when either fails WALLET_RE,
or when the two trimmed inputs are equal (each early return only sets the
error); otherwise mp battle_started, fetch, and set the battle result or
the error. -/
def doBattle (net : String → String → Except ErrMsg Battle)
    (wallet1 wallet2 : String) (st : BattleState) :
    BattleState × List Effect :=
  let w1 := jsTrim wallet1
  let w2 := jsTrim wallet2
  if w1 = "" ∨ w2 = "" then
    ({ st with error := some ErrMsg.enterBothWallets }, [])
  else if walletRe w1 = false then
    ({ st with error := some ErrMsg.invalidFirstWallet }, [])
  else if walletRe w2 = false then
    ({ st with error := some ErrMsg.invalidSecondWallet }, [])
  else if w1 = w2 then
    ({ st with error := some ErrMsg.sameWallet }, [])
  else
    match net w1 w2 with
    | Except.ok data =>
        ({ battle := some data, loading := false, error := none },
         [Effect.track MpTag.battleStarted, Effect.fetchBattle w1 w2,
          Effect.track MpTag.battleCompleted])
    | Except.error e =>
        ({ battle := none, loading := false, error := some e },
         [Effect.track MpTag.battleStarted, Effect.fetchBattle w1 w2,
          Effect.track MpTag.battleFailed])

/-- The JS idiom (x || 0) applied to a possibly-missing degen_score, as in
BattleResult: const score1 = roast1.degen_score || 0. -/
def jsOr0 (x : Option Nat) : Nat :=
  match x with
  | some n => n
  | none => 0

/-- The winner computation of the BattleResult component:
const winner = score1 >= score2 ? 1 : 2. -/
def battleWinner (roast1 roast2 : Roast) : Nat :=
  if jsOr0 roast2.degen_score ≤ jsOr0 roast1.degen_score then 1 else 2

/-- Modelled from the spec: a balance-change delta of one token for the
invoking account, the data the Swap Reconstructor scans (§4.2); the backend
engine is not in the source tree. -/
structure BalanceDelta where
  mint : String
  delta : Int
  deriving DecidableEq, Repr

/-- Modelled from the spec: RawTransaction (§3) — signature, block time,
program invocations, balance deltas, success flag, fee; the backend engine
is not in the source tree. -/
structure RawTransaction where
  signature : String
  blockTime : Nat
  programIds : List String
  deltas : List BalanceDelta
  success : Bool
  fee : Nat
  deriving DecidableEq, Repr

/-- Modelled from the spec: the static table of known decentralized-exchange
program identifiers (§4.2; aggregator router and two AMM families —
Jupiter, Raydium CLMM, Orca Whirlpool per the repository README). -/
def knownDexPrograms : List String :=
  ["JUP6LkbZbjS1jKKwapdHNy74zcZ3tLUZoi5QNyVTaV4",
   "CAMMCzo5YL8w4VFF8KVHrK22GGUsp5VTaW7grrKgrWqK",
   "whirLbMiicVdio4qvUfM5KAg6Ct8VwpYzGff3uctyCc"]

/-- Modelled from the spec: SwapRecord (§3) — timestamp, source and
destination token, amounts, protocol, success flag. -/
structure SwapRecord where
  timestamp : Nat
  tokenIn : String
  tokenOut : String
  amountIn : Nat
  amountOut : Nat
  protocol : String
  success : Bool
  deriving DecidableEq, Repr

/-- Modelled from the spec: the input-leg pick of the Swap Reconstructor
(§4.2) — among net-decreasing token balances, the largest-magnitude
decrease is the input leg. -/
def pickInputLeg (ds : List BalanceDelta) : Option (String × Nat) :=
  (ds.filter (fun d => d.delta < 0)).foldl
    (fun acc d =>
      match acc with
      | none => some (d.mint, d.delta.natAbs)
      | some (m, a) =>
          if a < d.delta.natAbs then some (d.mint, d.delta.natAbs)
          else some (m, a))
    none

/-- Modelled from the spec: the output-leg pick of the Swap Reconstructor
(§4.2) — among net-increasing token balances, the largest-magnitude
increase is the output leg. -/
def pickOutputLeg (ds : List BalanceDelta) : Option (String × Nat) :=
  (ds.filter (fun d => 0 < d.delta)).foldl
    (fun acc d =>
      match acc with
      | none => some (d.mint, d.delta.natAbs)
      | some (m, a) =>
          if a < d.delta.natAbs then some (d.mint, d.delta.natAbs)
          else some (m, a))
    none

/-- Modelled from the spec: per-transaction swap classification (§4.2).
A transaction yields zero or one SwapRecord: none when no known DEX
program is invoked; a success=false record with zero amounts for an
upstream-failed transaction; otherwise the collapsed single logical swap
from the picked input and output legs. -/
def reconstructSwap (tx : RawTransaction) : Option SwapRecord :=
  match tx.programIds.find? (fun p => knownDexPrograms.contains p) with
  | none => none
  | some prog =>
      if tx.success then
        match pickInputLeg tx.deltas, pickOutputLeg tx.deltas with
        | some (mi, ai), some (mo, ao) =>
            some { timestamp := tx.blockTime, tokenIn := mi, tokenOut := mo,
                   amountIn := ai, amountOut := ao, protocol := prog,
                   success := true }
        | _, _ => none
      else
        some { timestamp := tx.blockTime,
               tokenIn := (pickInputLeg tx.deltas).elim ("") Prod.fst,
               tokenOut := (pickOutputLeg tx.deltas).elim ("") Prod.fst,
               amountIn := 0, amountOut := 0, protocol := prog,
               success := false }

/-- Modelled from the spec: the Swap Reconstructor over the ordered
transaction list (§4.2), preserving chronological order. -/
def reconstructSwaps (txs : List RawTransaction) : List SwapRecord :=
  txs.filterMap reconstructSwap

/-- Number of transactions whose success flag is false. -/
def failedCount (txs : List RawTransaction) : Nat :=
  (txs.filter (fun t => !t.success)).length

/-- Modelled from the spec: failure rate (§4.4) = failed transactions /
total transactions, 0 if the total is 0. -/
def failureRate (txs : List RawTransaction) : ℚ :=
  if txs.length = 0 then 0
  else (failedCount txs : ℚ) / (txs.length : ℚ)

/-- Wall-clock hour of a transaction in the fixed reference timezone
(UTC): blockTime is a Unix timestamp in seconds. -/
def txHour (t : RawTransaction) : Nat := t.blockTime / 3600 % 24

/-- Modelled from the spec: nocturnal fraction (§4.4) — fraction of
transactions whose hour falls in the configured night window 00:00–05:00. -/
def nightFraction (txs : List RawTransaction) : ℚ :=
  if txs.length = 0 then 0
  else ((txs.filter (fun t => txHour t < 5)).length : ℚ) / (txs.length : ℚ)

/-- Modelled from the spec: the sliding-window width for burst detection
(§4.4), 10 minutes in seconds. -/
def burstWindow : Nat := 600

/-- Transactions falling in the half-open window [t0, t0 + burstWindow). -/
def windowCount (txs : List RawTransaction) (t0 : Nat) : Nat :=
  (txs.filter (fun t => t0 ≤ t.blockTime && t.blockTime < t0 + burstWindow)).length

/-- Modelled from the spec: burst score (§4.4) — the maximum transaction
count in any sliding window, normalized by total transaction count. -/
def burstScore (txs : List RawTransaction) : ℚ :=
  if txs.length = 0 then 0
  else (((txs.map (fun t => windowCount txs t.blockTime)).foldl max 0 : Nat) : ℚ) /
       (txs.length : ℚ)

/-- Native asset mint of the chain (wrapped SOL). -/
def nativeMint : String := "So11111111111111111111111111111111111111112"

/-- The sentinel symbol for unresolved mints (§4.3). -/
def unknownSymbol : String := "SHITCOIN"

/-- Modelled from the spec: Token Resolver (§4.3) — static registry lookup
with the sentinel fallback, no per-call network fetch. -/
def resolveSymbol (registry : List (String × String)) (mint : String) : String :=
  match registry.find? (fun p => p.1 == mint) with
  | some p => p.2
  | none => unknownSymbol

/-- Distinct mints ever acquired as the output of a successful swap. -/
def acquiredMints (swaps : List SwapRecord) : List String :=
  ((swaps.filter (fun s => s.success)).map (fun s => s.tokenOut)).dedup

/-- Mints ever swapped out (input leg of a successful swap). -/
def exitedMints (swaps : List SwapRecord) : List String :=
  (swaps.filter (fun s => s.success)).map (fun s => s.tokenIn)

/-- Modelled from the spec: graveyard tokens (§4.4) — distinct tokens
acquired via a swap, never swapped out again, not the native asset, and
resolving to the unknown sentinel (the price-based negligible-value arm of
the condition needs the external price capability and is not modelled). -/
def graveyardMints (registry : List (String × String))
    (swaps : List SwapRecord) : List String :=
  (acquiredMints swaps).filter (fun m =>
    !(exitedMints swaps).contains m && !(m == nativeMint) &&
    resolveSymbol registry m == unknownSymbol)

/-- Number of graveyard tokens. -/
def graveyardCount (registry : List (String × String))
    (swaps : List SwapRecord) : Nat :=
  (graveyardMints registry swaps).length

/-- Native units paid in for a token: amounts of successful swaps whose
source is the native asset and whose destination is the token. -/
def paidInNative (swaps : List SwapRecord) (m : String) : Nat :=
  ((swaps.filter (fun s =>
      s.success && s.tokenIn == nativeMint && s.tokenOut == m)).map
    (fun s => s.amountIn)).sum

/-- Native units received back for a token: amounts of successful swaps
whose source is the token and whose destination is the native asset. -/
def receivedOutNative (swaps : List SwapRecord) (m : String) : Nat :=
  ((swaps.filter (fun s =>
      s.success && s.tokenIn == m && s.tokenOut == nativeMint)).map
    (fun s => s.amountOut)).sum

/-- Tokens with a realized exit back to the native asset. -/
def exitedToNative (swaps : List SwapRecord) : List String :=
  (((swaps.filter (fun s => s.success && s.tokenOut == nativeMint)).map
    (fun s => s.tokenIn)).filter (fun m => !(m == nativeMint))).dedup

/-- Modelled from the spec: total realized loss (§4.5) — per token with a
realized exit, the native-equivalent paid in minus received out, negatives
ignored, summed over tokens (the external historical-price capability is
not modelled; values are in native units). -/
def totalLossNative (swaps : List SwapRecord) : Nat :=
  ((exitedToNative swaps).map (fun m =>
    paidInNative swaps m - receivedOutNative swaps m)).sum

/-- Modelled from the spec: the normalization cap for the loss-magnitude
sub-score (a fixed constant, §4.6). -/
def lossCap : Nat := 10

/-- Modelled from the spec: the normalized feature vector the Scoring
Engine consumes (§4.6) — swap frequency, failure rate, nocturnal fraction,
burst score, graveyard share, loss magnitude. -/
structure Features where
  swapFreq : ℚ
  failRate : ℚ
  nightFrac : ℚ
  burst : ℚ
  graveyardFrac : ℚ
  lossMag : ℚ
  deriving DecidableEq, Repr

/-- The all-zero feature vector (§8: the baseline for an empty wallet). -/
def zeroFeatures : Features :=
  { swapFreq := 0, failRate := 0, nightFrac := 0, burst := 0,
    graveyardFrac := 0, lossMag := 0 }

/-- Modelled from the spec: feature extraction — the Behavioral Analyzer
and Valuation Estimator outputs (§4.4, §4.5) as one vector, each a pure
function of the fetched data. -/
def featuresOf (registry : List (String × String))
    (txs : List RawTransaction) : Features :=
  let swaps := reconstructSwaps txs
  { swapFreq :=
      if txs.length = 0 then 0 else (swaps.length : ℚ) / (txs.length : ℚ),
    failRate := failureRate txs,
    nightFrac := nightFraction txs,
    burst := burstScore txs,
    graveyardFrac :=
      if (acquiredMints swaps).length = 0 then 0
      else (graveyardCount registry swaps : ℚ) /
           ((acquiredMints swaps).length : ℚ),
    lossMag := (totalLossNative swaps : ℚ) / (lossCap : ℚ) }

/-- Clamp a rational into [0, 1] — the normalization cap of §4.6. -/
def clamp01 (x : ℚ) : ℚ := max 0 (min 1 x)

/-- Modelled from the spec: the fixed weighted combination of normalized
sub-scores (§4.6); the weights are fixed constants summing to 100. -/
def rawScore (f : Features) : ℚ :=
  25 * clamp01 f.swapFreq + 20 * clamp01 f.failRate +
  15 * clamp01 f.nightFrac + 15 * clamp01 f.burst +
  15 * clamp01 f.graveyardFrac + 10 * clamp01 f.lossMag

/-- Floor of a nonnegative rational as a natural number. -/
def ratFloorNat (q : ℚ) : Nat := q.num.toNat / q.den

/-- Modelled from the spec: the bounded integer degen score (§4.6), the
weighted combination clamped into [1, 100]. -/
def degenScore (f : Features) : Nat :=
  max 1 (min 100 (ratFloorNat (rawScore f)))

/-- A scoring factor named in the rationale (§4.6). -/
inductive Factor where
  | swapFreq
  | failRate
  | nocturnal
  | burst
  | graveyard
  | loss
  deriving DecidableEq, Repr

/-- Modelled from the spec: the rationale enumerating which factors
dominated (§4.6) — the factors whose normalized sub-score reaches 1/2,
a fixed threshold. -/
def rationaleFactors (f : Features) : List Factor :=
  (if 1/2 ≤ clamp01 f.swapFreq then [Factor.swapFreq] else []) ++
  (if 1/2 ≤ clamp01 f.failRate then [Factor.failRate] else []) ++
  (if 1/2 ≤ clamp01 f.nightFrac then [Factor.nocturnal] else []) ++
  (if 1/2 ≤ clamp01 f.burst then [Factor.burst] else []) ++
  (if 1/2 ≤ clamp01 f.graveyardFrac then [Factor.graveyard] else []) ++
  (if 1/2 ≤ clamp01 f.lossMag then [Factor.loss] else [])

/-- Modelled from the spec: WalletProfile (§3) — the aggregate counters and
the score with its rationale (the fields the verified claims touch). -/
structure WalletProfile where
  txCount : Nat
  failCount : Nat
  swapCount : Nat
  graveyardTokens : Nat
  score : Nat
  rationale : List Factor
  deriving DecidableEq, Repr

/-- Modelled from the spec: the error taxonomy arm reachable in this model
(§7); partial-data and timeout conditions involve the external collaborators
and are outside this embedding. -/
inductive AnalysisError where
  | invalidAddress
  deriving DecidableEq, Repr

/-- Modelled from the spec: analyze(address) (§6) — fail fast on a
malformed address, otherwise run the pipeline over the fetched transaction
list and build the profile; a wallet with zero transactions is a valid
terminal case producing the baseline profile, not an error. -/
def analyze (registry : List (String × String)) (addr : String)
    (txs : List RawTransaction) : Except AnalysisError WalletProfile :=
  if walletRe addr = false then Except.error AnalysisError.invalidAddress
  else
    let swaps := reconstructSwaps txs
    let f := featuresOf registry txs
    Except.ok
      { txCount := txs.length, failCount := failedCount txs,
        swapCount := swaps.length,
        graveyardTokens := graveyardCount registry swaps,
        score := degenScore f, rationale := rationaleFactors f }

/-- The baseline profile of a wallet with zero transactions: every counter
zero, score from the all-zero feature vector. -/
def baselineProfile : WalletProfile :=
  { txCount := 0, failCount := 0, swapCount := 0, graveyardTokens := 0,
    score := degenScore zeroFeatures, rationale := rationaleFactors zeroFeatures }

/-- Number of prior population scores strictly below the given score. -/
def priorsBelow (priors : List Nat) (s : Nat) : Nat :=
  (priors.filter (fun x => x < s)).length

/-- Modelled from the spec: percentile rank (§4.6) — count of prior scores
strictly less than this score over the total prior count, times 100; none
(undefined/omitted) on an empty population rather than a fabricated value. -/
def percentileRank (priors : List Nat) (s : Nat) : Option ℚ :=
  if priors.length = 0 then none
  else some ((priorsBelow priors s : ℚ) / (priors.length : ℚ) * 100)

/-- Modelled from the spec: one completed analysis against the Population
Statistics (§3, §4.6) — rank among the priors (the current score is not in
the comparison set), then the append-only population grows by this score. -/
def recordScore (priors : List Nat) (s : Nat) : Option ℚ × List Nat :=
  (percentileRank priors s, priors ++ [s])

/-- The Achievements component (Achievements.jsx) renders the percentile
banner exactly when the percentile field is present (percentile != null). -/
def achievementsShowsPercentile (p : Option ℚ) : Bool := p.isSome

/-- Modelled from the spec: a Profile Cache entry (§3, §4.7) — the stored
profile and its creation timestamp for TTL eviction. -/
structure CacheEntry where
  profile : WalletProfile
  createdAt : Nat
  deriving DecidableEq, Repr

/-- Association-list lookup on the cache entries. -/
def cacheLookup (entries : List (String × CacheEntry)) (k : String) :
    Option CacheEntry :=
  match entries.find? (fun p => p.1 == k) with
  | some p => some p.2
  | none => none

/-- Modelled from the spec: get_or_compute (§4.7) — on a hit within TTL
return the stored profile without re-invoking the pipeline; on a miss or
an expired entry recompute lazily and store the fresh profile.  The third
component counts pipeline invocations this call issued. -/
def get_or_compute (compute : String → WalletProfile) (ttl now : Nat)
    (entries : List (String × CacheEntry)) (addr : String) :
    WalletProfile × List (String × CacheEntry) × Nat :=
  match cacheLookup entries addr with
  | some e =>
      if now - e.createdAt < ttl then (e.profile, entries, 0)
      else
        let p := compute addr
        (p, (addr, { profile := p, createdAt := now }) ::
              entries.filter (fun q => !(q.1 == addr)), 1)
  | none =>
      let p := compute addr
      (p, (addr, { profile := p, createdAt := now }) :: entries, 1)

/-- Modelled from the spec: the per-address coalescing state of the Profile
Cache miss path (§4.7, §5) — completed addresses, in-flight computations
with their waiter counts, and the number of upstream History Fetcher
invocations issued so far. -/
structure CoalesceState where
  cachedAddrs : List String
  inflight : List (String × Nat)
  fetchCount : Nat
  deriving DecidableEq, Repr

/-- The empty coalescing state: nothing cached, nothing in flight. -/
def emptyCoalesce : CoalesceState :=
  { cachedAddrs := [], inflight := [], fetchCount := 0 }

/-- Waiter count of an in-flight computation, if one exists. -/
def inflightWaiters (l : List (String × Nat)) (k : String) : Option Nat :=
  match l.find? (fun p => p.1 == k) with
  | some p => some p.2
  | none => none

/-- An event at the cache: a caller arrives for an address, or the single
in-flight computation for an address completes. -/
inductive CacheEvent where
  | arrive (addr : String)
  | complete (addr : String)
  deriving DecidableEq, Repr

/-- Modelled from the spec: one cache event under the at-most-one-writer
per-key discipline (§4.7, §5).  An arriving caller for a cached address is
served; for an address already in flight it joins the waiters; otherwise it
starts the single upstream fetch.  Completion moves the address to the
cache and clears its in-flight record. -/
def coalesceStep (st : CoalesceState) (e : CacheEvent) : CoalesceState :=
  match e with
  | CacheEvent.arrive a =>
      if st.cachedAddrs.contains a then st
      else
        match inflightWaiters st.inflight a with
        | some _ =>
            { st with inflight :=
                st.inflight.map (fun p => if p.1 == a then (p.1, p.2 + 1) else p) }
        | none =>
            { st with inflight := (a, 1) :: st.inflight,
                      fetchCount := st.fetchCount + 1 }
  | CacheEvent.complete a =>
      { st with cachedAddrs := a :: st.cachedAddrs,
                inflight := st.inflight.filter (fun p => !(p.1 == a)) }

/-- A serialized history of cache events (any interleaving of caller
arrivals and completions is a list of atomic events, §5). -/
def coalesceRun (st : CoalesceState) (es : List CacheEvent) : CoalesceState :=
  es.foldl coalesceStep st

/-- A syntactically valid sample address (32 base58 characters). -/
def sampleAddr : String := "11111111111111111111111111111111"

/-- A second, distinct valid sample address. -/
def sampleAddr2 : String := "22222222222222222222222222222222"

/-- A sample roast payload. -/
def sampleRoast : Roast := { degen_score := some 42, title := "Exit Liquidity" }

/-- A sample profile with concrete field values. -/
def sampleProfile : WalletProfile :=
  { txCount := 7, failCount := 1, swapCount := 3, graveyardTokens := 2,
    score := 42, rationale := [Factor.failRate] }

/-- A backend oracle that always fails; the rejected paths it witnesses
never consult it. -/
def stubNet : String → Except ErrMsg Roast :=
  fun _ => Except.error (ErrMsg.upstream 500)

/-- A battle backend oracle that always fails. -/
def stubBattleNet : String → String → Except ErrMsg Battle :=
  fun _ _ => Except.error (ErrMsg.upstream 500)

/-- The Jupiter aggregator program id (first entry of the DEX table). -/
def jupiterProgram : String := "JUP6LkbZbjS1jKKwapdHNy74zcZ3tLUZoi5QNyVTaV4"

/-- A sample mint identifier. -/
def mintA : String := "TokenAmint"

/-- Another sample mint identifier. -/
def mintB : String := "TokenBmint"

/-- A successful swap transaction fixture with one decreasing and one
increasing balance delta. -/
def swapTx (sig : String) (t : Nat) (mIn mOut : String) (aIn aOut : Nat) :
    RawTransaction :=
  { signature := sig, blockTime := t, programIds := [jupiterProgram],
    deltas := [{ mint := mIn, delta := -(aIn : Int) },
               { mint := mOut, delta := (aOut : Int) }],
    success := true, fee := 5000 }

/-- The §8 scenario transaction set: three successful swaps
(native→A, A→B, B→native) and one failed transaction, four in total. -/
def sampleFourTxs : List RawTransaction :=
  [swapTx ("s1") 1000 nativeMint mintA 5 100,
   swapTx ("s2") 2000 mintA mintB 100 200,
   swapTx ("s3") 3000 mintB nativeMint 200 3,
   { signature := "s4", blockTime := 4000, programIds := [], deltas := [],
     success := false, fee := 5000 }]

/-- The clamping in degenScore bounds every score into [1, 100]. -/
theorem degenScore_bounds (f : Features) :
    1 ≤ degenScore f ∧ degenScore f ≤ 100 := by
  unfold degenScore
  exact ⟨Nat.le_max_left _ _,
         Nat.max_le.mpr ⟨by norm_num, Nat.min_le_left _ _⟩⟩

/-- clamp01 of zero is zero. -/
theorem clamp01_zero : clamp01 0 = 0 := by
  unfold clamp01
  rw [min_eq_right (by norm_num : (0 : ℚ) ≤ 1), max_self]

/-- The weighted combination of the all-zero feature vector is zero. -/
theorem rawScore_zero : rawScore zeroFeatures = 0 := by
  simp [rawScore, zeroFeatures, clamp01_zero]

/-- ratFloorNat of zero is zero. -/
theorem ratFloorNat_zero : ratFloorNat 0 = 0 := by
  simp [ratFloorNat]

/-- The baseline score of the all-zero feature vector is 1. -/
theorem degenScore_zeroFeatures : degenScore zeroFeatures = 1 := by
  unfold degenScore
  rw [rawScore_zero, ratFloorNat_zero]
  decide

/-- Feature extraction on an empty transaction list yields the all-zero
feature vector, for every registry. -/
theorem featuresOf_nil (registry : List (String × String)) :
    featuresOf registry [] = zeroFeatures := by
  simp [featuresOf, reconstructSwaps, failureRate, nightFraction, burstScore,
        acquiredMints, graveyardCount, graveyardMints, exitedToNative,
        totalLossNative, failedCount, zeroFeatures]

/-- analyze on a valid address with zero transactions yields the baseline
profile. -/
theorem analyze_nil (registry : List (String × String)) (addr : String)
    (h : walletRe addr = true) :
    analyze registry addr [] = Except.ok baselineProfile := by
  simp [analyze, h, featuresOf_nil, baselineProfile, reconstructSwaps,
        failedCount, graveyardCount, graveyardMints, acquiredMints]

/-- Every profile analyze returns carries the degen score of the extracted
feature vector. -/
theorem analyze_score_eq (registry : List (String × String)) (addr : String)
    (txs : List RawTransaction) (p : WalletProfile)
    (hp : analyze registry addr txs = Except.ok p) :
    p.score = degenScore (featuresOf registry txs) := by
  unfold analyze at hp
  split at hp
  · exact Except.noConfusion hp
  · simp only [Except.ok.injEq] at hp
    rw [← hp]

/-- Every early-return branch of doBattle only sets an error message and
issues no effect. -/
theorem doBattle_early (net : String → String → Except ErrMsg Battle)
    (wallet1 wallet2 : String) (st : BattleState)
    (h : jsTrim wallet1 = "" ∨ jsTrim wallet2 = "" ∨
         walletRe (jsTrim wallet1) = false ∨
         walletRe (jsTrim wallet2) = false ∨
         jsTrim wallet1 = jsTrim wallet2) :
    ∃ m, doBattle net wallet1 wallet2 st = ({ st with error := some m }, []) := by
  unfold doBattle
  by_cases h1 : jsTrim wallet1 = "" ∨ jsTrim wallet2 = ""
  · exact ⟨ErrMsg.enterBothWallets, by rw [if_pos h1]⟩
  · rw [if_neg h1]
    by_cases h2 : walletRe (jsTrim wallet1) = false
    · exact ⟨ErrMsg.invalidFirstWallet, by rw [if_pos h2]⟩
    · rw [if_neg h2]
      by_cases h3 : walletRe (jsTrim wallet2) = false
      · exact ⟨ErrMsg.invalidSecondWallet, by rw [if_pos h3]⟩
      · rw [if_neg h3]
        have h4 : jsTrim wallet1 = jsTrim wallet2 := by
          rcases h with h | h | h | h | h
          · exact absurd (Or.inl h) h1
          · exact absurd (Or.inr h) h1
          · exact absurd h h2
          · exact absurd h h3
          · exact h
        exact ⟨ErrMsg.sameWallet, by rw [if_pos h4]⟩

/-- C1: every profile the analysis returns carries a degen score in
[1, 100], and the analysis is a pure deterministic function of the input
transaction set — equal inputs yield the identical profile, score and
rationale included. -/
theorem degen_score_bounded_deterministic :
    (∀ (registry : List (String × String)) (addr : String)
        (txs : List RawTransaction) (p : WalletProfile),
        analyze registry addr txs = Except.ok p →
        1 ≤ p.score ∧ p.score ≤ 100) ∧
    (∀ (registry : List (String × String)) (addr : String)
        (txs₁ txs₂ : List RawTransaction), txs₁ = txs₂ →
        analyze registry addr txs₁ = analyze registry addr txs₂) := by
  refine ⟨fun registry addr txs p hp => ?_,
          fun registry addr txs₁ txs₂ h => by rw [h]⟩
  rw [analyze_score_eq registry addr txs p hp]
  exact degenScore_bounds _

/-- Witness for C1: the bound and determinism at the concrete input of an
empty transaction set for a valid address. -/
theorem degen_score_bounded_deterministic_witness :
    (1 ≤ baselineProfile.score ∧ baselineProfile.score ≤ 100) ∧
    analyze [] sampleAddr [] = analyze [] sampleAddr [] :=
  ⟨degen_score_bounded_deterministic.1 [] sampleAddr [] baselineProfile
      (analyze_nil [] sampleAddr (by decide)),
   degen_score_bounded_deterministic.2 [] sampleAddr [] [] rfl⟩

/-- C5: for every valid address with zero transactions, analyze returns
the fixed baseline WalletProfile — score derived from the all-zero feature
vector (namely 1) — not a failure. -/
theorem analyze_empty_baseline :
    ∀ (registry : List (String × String)) (addr : String),
      walletRe addr = true →
      analyze registry addr [] = Except.ok baselineProfile ∧
      featuresOf registry [] = zeroFeatures ∧
      baselineProfile.score = degenScore zeroFeatures ∧
      baselineProfile.score = 1 := by
  intro registry addr h
  exact ⟨analyze_nil registry addr h, featuresOf_nil registry, rfl,
         degenScore_zeroFeatures⟩

/-- Witness for C5 at a concrete valid address and the empty registry. -/
theorem analyze_empty_baseline_witness :
    analyze [] sampleAddr [] = Except.ok baselineProfile ∧
    featuresOf [] [] = zeroFeatures ∧
    baselineProfile.score = degenScore zeroFeatures ∧
    baselineProfile.score = 1 :=
  analyze_empty_baseline [] sampleAddr (by decide)

/-- C6: the failure rate equals failed transactions over total
transactions, equals 0 on an empty stream, and on the §8 scenario set
(one failed transaction of four total) equals 1/4. -/
theorem failure_rate_spec :
    (∀ txs : List RawTransaction, txs.length = 0 → failureRate txs = 0) ∧
    (∀ txs : List RawTransaction, txs.length ≠ 0 →
        failureRate txs = (failedCount txs : ℚ) / (txs.length : ℚ)) ∧
    failureRate sampleFourTxs = 1 / 4 := by
  refine ⟨fun txs h => by simp [failureRate, h],
          fun txs h => by simp [failureRate, h], ?_⟩
  have h1 : failedCount sampleFourTxs = 1 := by decide
  have h2 : sampleFourTxs.length = 4 := by decide
  unfold failureRate
  rw [h1, h2]
  norm_num

/-- Witness for C6: the zero-transaction case and the formula discharged
at the concrete four-transaction scenario set. -/
theorem failure_rate_spec_witness :
    failureRate [] = 0 ∧
    failureRate sampleFourTxs =
      (failedCount sampleFourTxs : ℚ) / (sampleFourTxs.length : ℚ) :=
  ⟨failure_rate_spec.1 [] rfl,
   failure_rate_spec.2.1 sampleFourTxs (by decide)⟩

/-- C2: against a non-empty population of prior scores, the percentile
rank is the count of prior scores strictly below this score over the total
prior count times 100, and it is computed before the current score is
appended to the population; an empty population yields no percentile (the
Achievements banner is then omitted); a defined percentile lies in
[0, 100]. -/
theorem percentile_rank_formula :
    (∀ (priors : List Nat) (s : Nat), priors ≠ [] →
        (recordScore priors s).1 =
          some ((priorsBelow priors s : ℚ) / (priors.length : ℚ) * 100)) ∧
    (∀ (priors : List Nat) (s : Nat),
        (recordScore priors s).2 = priors ++ [s]) ∧
    (∀ s : Nat, (recordScore [] s).1 = none ∧
        achievementsShowsPercentile (recordScore [] s).1 = false) ∧
    (∀ (priors : List Nat) (s : Nat) (q : ℚ),
        percentileRank priors s = some q → 0 ≤ q ∧ q ≤ 100) := by
  refine ⟨?_, fun priors s => rfl, fun s => ⟨rfl, rfl⟩, ?_⟩
  · intro priors s h
    have hl : priors.length ≠ 0 := fun hh => h (List.length_eq_zero.mp hh)
    simp [recordScore, percentileRank, hl]
  · intro priors s q hq
    unfold percentileRank at hq
    split at hq
    · exact Option.noConfusion hq
    · rename_i h0
      simp only [Option.some.injEq] at hq
      subst hq
      have hn : (0 : ℚ) < (priors.length : ℚ) := by
        exact_mod_cast Nat.pos_of_ne_zero h0
      have hc : (priorsBelow priors s : ℚ) ≤ (priors.length : ℚ) := by
        exact_mod_cast List.length_filter_le _ priors
      constructor
      · positivity
      · calc (priorsBelow priors s : ℚ) / (priors.length : ℚ) * 100
            ≤ 1 * 100 := by
              have h1 : (priorsBelow priors s : ℚ) / (priors.length : ℚ) ≤ 1 :=
                (div_le_one hn).mpr hc
              exact mul_le_mul_of_nonneg_right h1 (by norm_num)
          _ = 100 := one_mul 100

/-- Witness for C2 at the concrete population [55] and score 60. -/
theorem percentile_rank_formula_witness :
    (recordScore [55] 60).1 =
      some ((priorsBelow [55] 60 : ℚ) / (([55] : List Nat).length : ℚ) * 100) ∧
    (0 ≤ (priorsBelow [55] 60 : ℚ) / (([55] : List Nat).length : ℚ) * 100 ∧
     (priorsBelow [55] 60 : ℚ) / (([55] : List Nat).length : ℚ) * 100 ≤ 100) :=
  ⟨percentile_rank_formula.1 [55] 60 (by decide),
   percentile_rank_formula.2.2.2 [55] 60 _
     (percentile_rank_formula.1 [55] 60 (by decide))⟩

/-- C3 counterexample: with prior population [10] a wallet scoring 20 has
percentile 100; appending a strictly higher-scoring wallet (30) and
recomputing drops it to 50, a strict decrease — the claimed monotonicity
fails under the stated rank formula. -/
theorem percentile_monotonic_counterexample :
    (20 : Nat) ≤ 30 ∧
    percentileRank [10] 20 = some 100 ∧
    percentileRank [10, 30] 20 = some 50 ∧
    (50 : ℚ) < 100 := by
  refine ⟨by norm_num, ?_, ?_, by norm_num⟩
  · unfold percentileRank
    norm_num [priorsBelow, List.filter]
  · unfold percentileRank
    norm_num [priorsBelow, List.filter]

/-- C3 amended: under the stated rank formula, appending a new wallet
whose score is at least the score of the already-computed wallet never
increases (it can only lower or preserve) the recomputed percentile rank
of that wallet. -/
theorem percentile_append_higher_antitone :
    ∀ (priors : List Nat) (s t : Nat) (q q' : ℚ), s ≤ t →
      percentileRank priors s = some q →
      percentileRank (priors ++ [t]) s = some q' →
      q' ≤ q := by
  intro priors s t q q' hst hq hq'
  have hcount : priorsBelow (priors ++ [t]) s = priorsBelow priors s := by
    have hns : ¬ (t < s) := Nat.not_lt.mpr hst
    simp [priorsBelow, List.filter_append, hns]
  unfold percentileRank at hq hq'
  by_cases h0 : priors.length = 0
  · rw [if_pos h0] at hq
    exact Option.noConfusion hq
  · rw [if_neg h0] at hq
    rw [if_neg (by simp : ¬ (priors ++ [t]).length = 0)] at hq'
    simp only [Option.some.injEq] at hq hq'
    subst hq
    subst hq'
    rw [hcount, List.length_append]
    have hn : (0 : ℚ) < (priors.length : ℚ) := by
      exact_mod_cast Nat.pos_of_ne_zero h0
    have hcq : (0 : ℚ) ≤ (priorsBelow priors s : ℚ) := by positivity
    push_cast
    gcongr
    linarith

/-- Witness for the amended C3 at priors [10], wallet score 20, appended
score 30. -/
theorem percentile_append_higher_antitone_witness :
    (priorsBelow ([10] ++ [30]) 20 : ℚ) /
        ((([10] : List Nat) ++ [30]).length : ℚ) * 100 ≤
      (priorsBelow [10] 20 : ℚ) / (([10] : List Nat).length : ℚ) * 100 :=
  percentile_append_higher_antitone [10] 20 30 _ _ (by decide)
    (by unfold percentileRank; simp)
    (by unfold percentileRank; simp)

/-- C4 counterexample: the empty input fails the wallet pattern after
trimming, yet doRoast returns silently — no invalid-address error is set
(the state is returned unchanged, with no effects). -/
theorem invalid_address_empty_input_counterexample :
    walletRe (jsTrim ("")) = false ∧
    (doRoast stubNet ("") initRoastState).1.error = none ∧
    doRoast stubNet ("") initRoastState = (initRoastState, []) := by
  decide

/-- C4 amended: for every input whose trimmed form fails the wallet
pattern, doRoast issues no pipeline fetch; when the trimmed input is
nonempty it sets the invalid-address error, and when it is empty it
returns silently with the state unchanged.  doBattle likewise rejects a
malformed wallet on either side: an error is set, no pipeline fetch is
issued, and the battle state is unchanged. -/
theorem invalid_address_fails_fast :
    (∀ (net : String → Except ErrMsg Roast) (input : String)
        (st : RoastState),
        walletRe (jsTrim input) = false →
        (doRoast net input st).2.filter isPipelineFetch = [] ∧
        (jsTrim input ≠ "" →
          (doRoast net input st).1.error = some ErrMsg.invalidAddress) ∧
        (jsTrim input = "" → doRoast net input st = (st, []))) ∧
    (∀ (net : String → String → Except ErrMsg Battle) (w1 w2 : String)
        (st : BattleState),
        walletRe (jsTrim w1) = false ∨ walletRe (jsTrim w2) = false →
        (doBattle net w1 w2 st).1.error ≠ none ∧
        (doBattle net w1 w2 st).2.filter isPipelineFetch = [] ∧
        (doBattle net w1 w2 st).1.battle = st.battle) := by
  constructor
  · intro net input st h
    by_cases he : jsTrim input = ""
    · have hd : doRoast net input st = (st, []) := by simp [doRoast, he]
      exact ⟨by rw [hd]; rfl, fun hc => absurd he hc, fun _ => hd⟩
    · have hd : doRoast net input st =
          ({ st with error := some ErrMsg.invalidAddress },
           [Effect.track MpTag.roastStarted]) := by
        simp [doRoast, he, h]
      exact ⟨by rw [hd]; rfl, fun _ => by rw [hd], fun hc => absurd hc he⟩
  · intro net w1 w2 st h
    obtain ⟨m, hm⟩ := doBattle_early net w1 w2 st (by tauto)
    rw [hm]
    exact ⟨by simp, rfl, rfl⟩

/-- Witness for the amended C4: a nonempty malformed input to doRoast and
to doBattle. -/
theorem invalid_address_fails_fast_witness :
    ((doRoast stubNet ("abc") initRoastState).2.filter isPipelineFetch = [] ∧
     (jsTrim ("abc") ≠ "" →
       (doRoast stubNet ("abc") initRoastState).1.error =
         some ErrMsg.invalidAddress) ∧
     (jsTrim ("abc") = "" →
       doRoast stubNet ("abc") initRoastState = (initRoastState, []))) ∧
    ((doBattle stubBattleNet ("abc") sampleAddr initBattleState).1.error ≠
        none ∧
     (doBattle stubBattleNet ("abc") sampleAddr
        initBattleState).2.filter isPipelineFetch = [] ∧
     (doBattle stubBattleNet ("abc") sampleAddr initBattleState).1.battle =
       initBattleState.battle) :=
  ⟨invalid_address_fails_fast.1 stubNet ("abc") initRoastState (by decide),
   invalid_address_fails_fast.2 stubBattleNet ("abc") sampleAddr
     initBattleState (Or.inl (by decide))⟩

/-- C7: within the TTL window get_or_compute returns the stored profile
unchanged with zero pipeline invocations; in the frontend, a doRoast of a
cached address serves the cached roast with no pipeline fetch. -/
theorem analyze_idempotent_within_ttl :
    (∀ (compute : String → WalletProfile) (ttl now : Nat)
        (entries : List (String × CacheEntry)) (addr : String)
        (e : CacheEntry),
        cacheLookup entries addr = some e → now - e.createdAt < ttl →
        get_or_compute compute ttl now entries addr =
          (e.profile, entries, 0)) ∧
    (∀ (net : String → Except ErrMsg Roast) (input : String)
        (st : RoastState) (r : Roast),
        lookup st.cache (jsTrim input) = some r →
        walletRe (jsTrim input) = true →
        (doRoast net input st).1.roast = some r ∧
        (doRoast net input st).2.filter isPipelineFetch = []) := by
  constructor
  · intro compute ttl now entries addr e he httl
    simp [get_or_compute, he, httl]
  · intro net input st r hr hw
    have hne : jsTrim input ≠ "" := by
      intro hemp
      rw [hemp] at hw
      exact absurd hw (by decide)
    have hd : doRoast net input st =
        ({ st with wallet := jsTrim input, loading := false, error := none,
                   roast := some r },
         [Effect.track MpTag.roastStarted,
          Effect.track MpTag.roastCompleted]) := by
      simp [doRoast, hne, hw, hr]
    exact ⟨by rw [hd], by rw [hd]; rfl⟩

/-- Witness for C7: a concrete in-TTL cache hit and a concrete cached
doRoast. -/
theorem analyze_idempotent_within_ttl_witness :
    get_or_compute (fun _ => sampleProfile) 60 10
        [(sampleAddr, { profile := sampleProfile, createdAt := 0 })]
        sampleAddr =
      (sampleProfile,
       [(sampleAddr, { profile := sampleProfile, createdAt := 0 })], 0) ∧
    ((doRoast stubNet sampleAddr
        { initRoastState with cache := [(sampleAddr, sampleRoast)] }).1.roast =
      some sampleRoast ∧
     (doRoast stubNet sampleAddr
        { initRoastState with
            cache := [(sampleAddr, sampleRoast)] }).2.filter
        isPipelineFetch = []) :=
  ⟨analyze_idempotent_within_ttl.1 (fun _ => sampleProfile) 60 10
     [(sampleAddr, { profile := sampleProfile, createdAt := 0 })] sampleAddr
     { profile := sampleProfile, createdAt := 0 } (by decide) (by decide),
   analyze_idempotent_within_ttl.2 stubNet sampleAddr
     { initRoastState with cache := [(sampleAddr, sampleRoast)] }
     sampleRoast (by decide) (by decide)⟩

/-- While a computation for an uncached address is in flight, further
arrivals for it only bump the waiter count: the fetch count and the rest
of the state are unchanged. -/
theorem coalesceRun_arrive_inflight (a : String) (n : Nat) :
    ∀ (k c : Nat) (cached : List String), cached.contains a = false →
      coalesceRun
          { cachedAddrs := cached, inflight := [(a, k)], fetchCount := c }
          (List.replicate n (CacheEvent.arrive a)) =
        { cachedAddrs := cached, inflight := [(a, k + n)], fetchCount := c } := by
  induction n with
  | zero => intro k c cached hc; rfl
  | succ m ih =>
      intro k c cached hc
      rw [List.replicate_succ]
      have hstep :
          coalesceStep
              { cachedAddrs := cached, inflight := [(a, k)], fetchCount := c }
              (CacheEvent.arrive a) =
            { cachedAddrs := cached, inflight := [(a, k + 1)],
              fetchCount := c } := by
        have hmem : a ∉ cached := by simpa using hc
        simp [coalesceStep, inflightWaiters, hc, hmem]
      have h1 :
          coalesceRun
              { cachedAddrs := cached, inflight := [(a, k)], fetchCount := c }
              (CacheEvent.arrive a :: List.replicate m (CacheEvent.arrive a)) =
            coalesceRun
              (coalesceStep
                { cachedAddrs := cached, inflight := [(a, k)],
                  fetchCount := c }
                (CacheEvent.arrive a))
              (List.replicate m (CacheEvent.arrive a)) := rfl
      rw [h1, hstep, ih (k + 1) c cached hc]
      have h2 : k + 1 + m = k + (m + 1) := by omega
      rw [h2]

/-- C8: N ≥ 1 arrivals for the same uncached address, serialized by the
per-key at-most-one-writer discipline, issue exactly one upstream History
Fetcher invocation, and all N callers wait on the single in-flight
computation. -/
theorem cache_coalescing_single_fetch :
    ∀ (a : String) (n : Nat), 1 ≤ n →
      (coalesceRun emptyCoalesce
          (List.replicate n (CacheEvent.arrive a))).fetchCount = 1 ∧
      inflightWaiters
          (coalesceRun emptyCoalesce
            (List.replicate n (CacheEvent.arrive a))).inflight a =
        some n := by
  intro a n hn
  obtain ⟨m, rfl⟩ : ∃ m, n = m + 1 := ⟨n - 1, by omega⟩
  rw [List.replicate_succ]
  have hstep : coalesceStep emptyCoalesce (CacheEvent.arrive a) =
      { cachedAddrs := [], inflight := [(a, 1)], fetchCount := 1 } := by
    simp [coalesceStep, emptyCoalesce, inflightWaiters]
  have h1 :
      coalesceRun emptyCoalesce
          (CacheEvent.arrive a :: List.replicate m (CacheEvent.arrive a)) =
        coalesceRun (coalesceStep emptyCoalesce (CacheEvent.arrive a))
          (List.replicate m (CacheEvent.arrive a)) := rfl
  rw [h1, hstep, coalesceRun_arrive_inflight a m 1 1 [] rfl]
  refine ⟨rfl, ?_⟩
  simp [inflightWaiters, Nat.add_comm]

/-- Witness for C8: three arrivals for a concrete uncached address. -/
theorem cache_coalescing_single_fetch_witness :
    (coalesceRun emptyCoalesce
        (List.replicate 3 (CacheEvent.arrive sampleAddr))).fetchCount = 1 ∧
    inflightWaiters
        (coalesceRun emptyCoalesce
          (List.replicate 3 (CacheEvent.arrive sampleAddr))).inflight
        sampleAddr =
      some 3 :=
  cache_coalescing_single_fetch sampleAddr 3 (by decide)

/-- C9: doBattle rejects a pair whose inputs trim to the same string, and
likewise empty or malformed inputs: an error is set, no request of any
kind is issued, and the battle result state is unchanged — in particular
still null when it was null. -/
theorem battle_same_wallet_rejected :
    ∀ (net : String → String → Except ErrMsg Battle) (w1 w2 : String)
      (st : BattleState),
      jsTrim w1 = jsTrim w2 ∨ jsTrim w1 = "" ∨ jsTrim w2 = "" ∨
        walletRe (jsTrim w1) = false ∨ walletRe (jsTrim w2) = false →
      (doBattle net w1 w2 st).1.error ≠ none ∧
      (doBattle net w1 w2 st).2 = [] ∧
      (doBattle net w1 w2 st).1.battle = st.battle ∧
      (doBattle net w1 w2 st).1.loading = st.loading ∧
      (st.battle = none → (doBattle net w1 w2 st).1.battle = none) := by
  intro net w1 w2 st h
  obtain ⟨m, hm⟩ := doBattle_early net w1 w2 st (by tauto)
  rw [hm]
  exact ⟨by simp, rfl, rfl, rfl, fun hb => hb⟩

/-- Witness for C9: the same valid address on both sides. -/
theorem battle_same_wallet_rejected_witness :
    (doBattle stubBattleNet sampleAddr sampleAddr initBattleState).1.error ≠
        none ∧
    (doBattle stubBattleNet sampleAddr sampleAddr initBattleState).2 = [] ∧
    (doBattle stubBattleNet sampleAddr sampleAddr
        initBattleState).1.battle = initBattleState.battle ∧
    (doBattle stubBattleNet sampleAddr sampleAddr
        initBattleState).1.loading = initBattleState.loading ∧
    (initBattleState.battle = none →
      (doBattle stubBattleNet sampleAddr sampleAddr
        initBattleState).1.battle = none) :=
  battle_same_wallet_rejected stubBattleNet sampleAddr sampleAddr
    initBattleState (Or.inl rfl)

/-- C10: the BattleResult crown goes to wallet 1 exactly when its score is
greater than or equal to the score of wallet 2 — ties go to the first
wallet — with a
missing score read as 0; wallet 2 wins exactly when its score is strictly
greater. -/
theorem battle_winner_ties_to_first :
    ∀ r1 r2 : Roast,
      (battleWinner r1 r2 = 1 ↔
        jsOr0 r2.degen_score ≤ jsOr0 r1.degen_score) ∧
      (battleWinner r1 r2 = 2 ↔
        jsOr0 r1.degen_score < jsOr0 r2.degen_score) ∧
      jsOr0 none = 0 := by
  intro r1 r2
  by_cases h : jsOr0 r2.degen_score ≤ jsOr0 r1.degen_score
  · refine ⟨?_, ?_, rfl⟩
    · simp [battleWinner, h]
    · simp only [battleWinner, if_pos h]
      constructor
      · intro hc; exact absurd hc (by decide)
      · intro hlt; omega
  · refine ⟨?_, ?_, rfl⟩
    · simp only [battleWinner, if_neg h]
      constructor
      · intro hc; exact absurd hc (by decide)
      · intro hle; omega
    · simp [battleWinner, h]
      omega

end RoastBot
